/-
Verification of the CTI pipeline core against its specification.

Shallow embedding of the TypeScript sources:
  - scripts/cti/src/dashboard/generate-dashboard.ts (DashboardGenerator, LLMAnalyzer)
  - the base scraper class (BaseScraper: execute, applyRateLimit, loadFromCache)
  - the agent system fallback (CTIAgentSystem.fallbackAnalysis)

JavaScript numbers are modelled as exact rationals; timestamps as integers
(milliseconds since epoch); fallible operations as Option.
-/
import Mathlib

set_option maxHeartbeats 1000000

/-- JS Math.round: round half towards positive infinity, i.e. floor(x + 1/2). -/
def jsRound (q : ℚ) : ℤ := ⌊q + 1/2⌋

inductive RiskLevel where
  | critical
  | elevated
  | moderate
  | low
deriving DecidableEq, Repr

inductive Trend where
  | increasing
  | stable
  | decreasing
deriving DecidableEq, Repr

namespace DashboardGenerator

/-- Source: generate-dashboard.ts, calculateRiskScore.
`const score = (critical * 40) + (high * 20) + (medium * 5) + (low * 1);
 return Math.min(100, Math.round(score));` -/
def calculateRiskScore (critical high medium low : ℚ) : ℤ :=
  let score := critical * 40 + high * 20 + medium * 5 + low * 1
  min 100 (jsRound score)

/-- Source: generate-dashboard.ts, determineRiskLevel.
`if (score >= 75) return 'critical'; if (score >= 45) return 'elevated';
 if (score >= 15) return 'moderate'; return 'low';` -/
def determineRiskLevel (score : ℤ) : RiskLevel :=
  if score ≥ 75 then .critical
  else if score ≥ 45 then .elevated
  else if score ≥ 15 then .moderate
  else .low

/-- Source: generate-dashboard.ts, determineTrend.  Threats are represented by
their timestamps (ms since epoch, the value of `new Date(t.timestamp).getTime()`).
`const hourAgo = now - 3600000;
 const recentCount = threats.filter(t => ... > hourAgo).length;
 if (recentCount > threats.length * 0.5) return 'increasing';
 if (recentCount < threats.length * 0.2) return 'decreasing';
 return 'stable';`
The float products `n * 0.5` (exact in binary) and `n * 0.2` never move an
integer across the comparison boundary, so exact rationals are observationally
equal here. -/
def determineTrend (threats : List ℤ) (now : ℤ) : Trend :=
  let hourAgo := now - 3600000
  let recentCount := (threats.filter (fun ts => hourAgo < ts)).length
  if (recentCount : ℚ) > (threats.length : ℚ) * 0.5 then .increasing
  else if (recentCount : ℚ) < (threats.length : ℚ) * 0.2 then .decreasing
  else .stable

end DashboardGenerator

lemma jsRound_intCast (n : ℤ) : jsRound (n : ℚ) = n := by
  unfold jsRound
  rw [Int.floor_int_add]
  norm_num

lemma calculateRiskScore_natCast (c h m l : ℕ) :
    DashboardGenerator.calculateRiskScore c h m l =
      min 100 ((c * 40 + h * 20 + m * 5 + l : ℕ) : ℤ) := by
  unfold DashboardGenerator.calculateRiskScore
  have key : ((c : ℚ) * 40 + (h : ℚ) * 20 + (m : ℚ) * 5 + (l : ℚ) * 1) =
      (((c * 40 + h * 20 + m * 5 + l : ℕ) : ℤ) : ℚ) := by
    push_cast
    ring
  simp only [key, jsRound_intCast]

lemma calculateRiskScore_2100 : DashboardGenerator.calculateRiskScore 2 1 0 0 = 100 := by
  have h := calculateRiskScore_natCast 2 1 0 0
  norm_num at h
  exact h

/-- Claim C1: for all non-negative severity counts the risk score equals
min(100, round(critical*40 + high*20 + medium*5 + low*1)); determineRiskLevel
maps a score to critical exactly when score >= 75, elevated exactly when
45 <= score < 75, moderate exactly when 15 <= score < 45, low otherwise, with
inclusive boundaries; and critical=2, high=1, medium=0, low=0 gives score 100
and level critical. -/
theorem claim_c1 :
    (∀ critical high medium low : ℕ,
      DashboardGenerator.calculateRiskScore critical high medium low =
        min 100 ((critical * 40 + high * 20 + medium * 5 + low : ℕ) : ℤ)) ∧
    (∀ score : ℤ,
      (DashboardGenerator.determineRiskLevel score = .critical ↔ 75 ≤ score) ∧
      (DashboardGenerator.determineRiskLevel score = .elevated ↔ 45 ≤ score ∧ score < 75) ∧
      (DashboardGenerator.determineRiskLevel score = .moderate ↔ 15 ≤ score ∧ score < 45) ∧
      (DashboardGenerator.determineRiskLevel score = .low ↔ score < 15)) ∧
    DashboardGenerator.calculateRiskScore 2 1 0 0 = 100 ∧
    DashboardGenerator.determineRiskLevel (DashboardGenerator.calculateRiskScore 2 1 0 0) =
      .critical := by
  refine ⟨calculateRiskScore_natCast, ?_, ?_, ?_⟩
  · intro s
    unfold DashboardGenerator.determineRiskLevel
    split_ifs with h1 h2 h3 <;> refine ⟨?_, ?_, ?_, ?_⟩ <;>
      simp_all <;> omega
  · exact calculateRiskScore_2100
  · rw [calculateRiskScore_2100]
    rfl

/-- Claim C8: over all non-negative severity tuples, increasing the critical
count by one never decreases the risk score, and the score always lies in
the interval from 0 to 100. -/
theorem claim_c8 :
    ∀ critical high medium low : ℕ,
      DashboardGenerator.calculateRiskScore critical high medium low ≤
        DashboardGenerator.calculateRiskScore (critical + 1) high medium low ∧
      0 ≤ DashboardGenerator.calculateRiskScore critical high medium low ∧
      DashboardGenerator.calculateRiskScore critical high medium low ≤ 100 := by
  intro c h m l
  have e1 := calculateRiskScore_natCast c h m l
  have e2 := calculateRiskScore_natCast (c + 1) h m l
  have hc : ((c : ℚ) + 1) = (((c + 1 : ℕ) : ℚ)) := by push_cast; ring
  refine ⟨?_, ?_, ?_⟩
  · rw [e1, show DashboardGenerator.calculateRiskScore ((c : ℚ) + 1) h m l =
        DashboardGenerator.calculateRiskScore ((c + 1 : ℕ) : ℚ) h m l from by rw [hc], e2]
    exact min_le_min (le_refl _) (by exact_mod_cast Nat.le_of_lt_succ (by omega))
  · rw [e1]
    exact le_min (by norm_num) (Int.natCast_nonneg _)
  · rw [e1]
    exact min_le_left _ _

/-- Claim C9: determineTrend counts the threats with timestamp in the last hour
as the recent bucket and returns increasing exactly when recent > 0.5*total,
decreasing exactly when recent < 0.2*total, stable otherwise; an empty threat
list yields stable (no division happens at all). -/
theorem claim_c9 :
    ∀ (threats : List ℤ) (now : ℤ),
      (DashboardGenerator.determineTrend threats now = .increasing ↔
        threats.length < 2 * (threats.filter (fun ts => now - 3600000 < ts)).length) ∧
      (DashboardGenerator.determineTrend threats now = .decreasing ↔
        5 * (threats.filter (fun ts => now - 3600000 < ts)).length < threats.length) ∧
      (DashboardGenerator.determineTrend threats now = .stable ↔
        ¬ threats.length < 2 * (threats.filter (fun ts => now - 3600000 < ts)).length ∧
        ¬ 5 * (threats.filter (fun ts => now - 3600000 < ts)).length < threats.length) ∧
      (threats = [] → DashboardGenerator.determineTrend threats now = .stable) := by
  intro threats now
  have half : ∀ a b : ℕ, ((b : ℚ) * 0.5 < a) ↔ (b < 2 * a) := by
    intro a b
    rw [show ((b : ℕ) < 2 * a) ↔ ((b : ℚ) < ((2 * a : ℕ) : ℚ)) from by exact_mod_cast Iff.rfl]
    push_cast
    constructor <;> intro hh <;> nlinarith
  have fifth : ∀ a b : ℕ, ((a : ℚ) < (b : ℚ) * 0.2) ↔ (5 * a < b) := by
    intro a b
    rw [show (5 * a < b) ↔ (((5 * a : ℕ) : ℚ) < (b : ℚ)) from by exact_mod_cast Iff.rfl]
    push_cast
    constructor <;> intro hh <;> nlinarith
  have trend_eq : DashboardGenerator.determineTrend threats now =
      (if threats.length <
            2 * (threats.filter (fun ts => now - 3600000 < ts)).length then Trend.increasing
       else if 5 * (threats.filter (fun ts => now - 3600000 < ts)).length <
            threats.length then Trend.decreasing
       else Trend.stable) := by
    unfold DashboardGenerator.determineTrend
    simp only [gt_iff_lt, half, fifth]
  refine ⟨?_, ?_, ?_, ?_⟩
  · rw [trend_eq]
    split_ifs with h1 h2
    · exact iff_of_true rfl h1
    · exact iff_of_false (by simp) h1
    · exact iff_of_false (by simp) h1
  · rw [trend_eq]
    split_ifs with h1 h2
    · exact iff_of_false (by simp) (by omega)
    · exact iff_of_true rfl h2
    · exact iff_of_false (by simp) h2
  · rw [trend_eq]
    split_ifs with h1 h2
    · exact iff_of_false (by simp) (by omega)
    · exact iff_of_false (by simp) (by omega)
    · exact iff_of_true rfl ⟨h1, h2⟩
  · intro h
    subst h
    rw [trend_eq]
    simp

namespace BaseScraper

structure RateLimitConfig where
  requestsPerMinute : ℚ
  cooldownMs : ℚ
deriving DecidableEq

structure CacheConfig where
  enabled : Bool
  ttlHours : ℤ
deriving DecidableEq

/-- Source: ScraperConfig from types/index, as consumed by base-scraper. -/
structure ScraperConfig where
  source : String
  enabled : Bool
  rateLimit : RateLimitConfig
  cache : CacheConfig
deriving DecidableEq

/-- Source: ScraperResult from types/index:
`{ success: boolean; data?: T; error?: string; fromCache: boolean }`. -/
structure ScraperResult (T : Type) where
  success : Bool
  data : Option T
  error : Option String
  fromCache : Bool
deriving DecidableEq

/-- Source: base-scraper, BaseScraper.execute.  The effects are passed in
explicitly: `useCacheEnv` is the value of `process.env.USE_CACHE === 'true'`,
`cached` is the result of `loadFromCache()`, and `scrapeOutcome` is the
behaviour of the abstract `scrape()` call (a thrown exception becomes
`Except.error` with its message).  `applyRateLimit` and `saveToCache` do not
affect the returned result. -/
def execute (T : Type) (config : ScraperConfig) (useCacheEnv : Bool)
    (cached : Option T) (scrapeOutcome : Except String T) : ScraperResult T :=
  if config.enabled = false then
    { success := false, data := none, error := some "Scraper disabled", fromCache := false }
  else if config.cache.enabled && useCacheEnv && cached.isSome then
    { success := true, data := cached, error := none, fromCache := true }
  else
    match scrapeOutcome with
    | .ok d => { success := true, data := some d, error := none, fromCache := false }
    | .error e => { success := false, data := none, error := some e, fromCache := false }

/-- Source: base-scraper, BaseScraper.applyRateLimit.  Returns the pair
(waitTime, new lastRequestTime); the new lastRequestTime is `Date.now()`
taken right after the sleep, i.e. the earliest moment the request can start
(an exact sleep is assumed; a longer sleep only increases the separation).
`const elapsed = now - this.lastRequestTime;
 const minInterval = 60000 / this.config.rateLimit.requestsPerMinute;
 if (elapsed < minInterval) {
   const waitTime = minInterval - elapsed + this.config.rateLimit.cooldownMs;
   await this.sleep(waitTime); }
 this.lastRequestTime = Date.now();` -/
def applyRateLimit (cfg : RateLimitConfig) (lastRequestTime now : ℚ) : ℚ × ℚ :=
  let elapsed := now - lastRequestTime
  let minInterval := 60000 / cfg.requestsPerMinute
  if elapsed < minInterval then
    let waitTime := minInterval - elapsed + cfg.cooldownMs
    (waitTime, now + waitTime)
  else
    (0, now)

/-- Source: CacheMetadata from types/index:
`{ createdAt, expiresAt, source, checksum }` (loadFromCache uses only
createdAt and checksum; createdAt/expiresAt as ms since epoch). -/
structure CacheMetadata where
  createdAt : ℤ
  expiresAt : ℤ
  source : String
  checksum : String
deriving DecidableEq

/-- Source: base-scraper, BaseScraper.loadFromCache.  File-system effects are
passed in: `metadata` is the parsed sidecar (none when the file is missing or
unreadable), `payload` the raw cache file contents (none when missing),
`hash` the md5 hex digest function (generateChecksum), `parse` the JSON
parser for the payload (none models a parse exception, caught by the
surrounding try).  `ttlHours` is `Number(process.env.CACHE_TTL_HOURS) ||
config.cache.ttlHours`.  The whole body is wrapped in try/catch returning
null, so every failure path is a MISS (none), never a throw. -/
def loadFromCache {T : Type} (hash : String → String) (parse : String → Option T)
    (metadata : Option CacheMetadata) (payload : Option String)
    (ttlHours now : ℤ) : Option T :=
  match metadata, payload with
  | some m, some dataRaw =>
    let expiresAt := m.createdAt + ttlHours * 3600000
    if now > expiresAt then none
    else if hash dataRaw ≠ m.checksum then none
    else parse dataRaw
  | _, _ => none

end BaseScraper

/-- Claim C3 (corrected): a disabled scraper does NOT return a success with a
fromCache flag; execute returns the typed failure
`{success: false, error: 'Scraper disabled', fromCache: false}` for it.  The
concrete disabled configuration below exhibits this. -/
theorem claim_c3_counterexample :
    (BaseScraper.execute ℕ
      ⟨"shodan", false, ⟨5, 2000⟩, ⟨true, 24⟩⟩ true none (Except.ok 0)).success = false ∧
    (BaseScraper.execute ℕ
      ⟨"shodan", false, ⟨5, 2000⟩, ⟨true, 24⟩⟩ true none (Except.ok 0)).error =
        some "Scraper disabled" ∧
    (BaseScraper.execute ℕ
      ⟨"shodan", false, ⟨5, 2000⟩, ⟨true, 24⟩⟩ true none (Except.ok 0)).fromCache = false :=
  ⟨rfl, rfl, rfl⟩

/-- Claim C3 (amended): a disabled scraper returns the typed failure result
with error 'Scraper disabled' (not a thrown exception, but also not a
success); a cache hit returns a success carrying the cached data with the
fromCache flag; and when scrape() throws, execute returns a typed failure
result carrying the message instead of propagating the exception. -/
theorem claim_c3 :
    ∀ (T : Type) (config : BaseScraper.ScraperConfig) (useCacheEnv : Bool)
      (cached : Option T) (scrapeOutcome : Except String T),
      (config.enabled = false →
        BaseScraper.execute T config useCacheEnv cached scrapeOutcome =
          ⟨false, none, some "Scraper disabled", false⟩) ∧
      (config.enabled = true →
        (config.cache.enabled && useCacheEnv && cached.isSome) = true →
        BaseScraper.execute T config useCacheEnv cached scrapeOutcome =
          ⟨true, cached, none, true⟩) ∧
      (∀ e, config.enabled = true →
        (config.cache.enabled && useCacheEnv && cached.isSome) = false →
        scrapeOutcome = .error e →
        BaseScraper.execute T config useCacheEnv cached scrapeOutcome =
          ⟨false, none, some e, false⟩) ∧
      (∀ d, config.enabled = true →
        (config.cache.enabled && useCacheEnv && cached.isSome) = false →
        scrapeOutcome = .ok d →
        BaseScraper.execute T config useCacheEnv cached scrapeOutcome =
          ⟨true, some d, none, false⟩) := by
  intro T config useCacheEnv cached scrapeOutcome
  refine ⟨?_, ?_, ?_, ?_⟩
  · intro h
    simp [BaseScraper.execute, h]
  · intro h hc
    simp [BaseScraper.execute, h, hc]
  · intro e h hc hs
    subst hs
    simp [BaseScraper.execute, h, hc]
  · intro d h hc hs
    subst hs
    simp [BaseScraper.execute, h, hc]

/-- Witness for C3: the amended theorem applied to concrete enabled
configurations, a failing scrape and a cache hit. -/
theorem claim_c3_witness :
    BaseScraper.execute ℕ ⟨"x.com", true, ⟨5, 2000⟩, ⟨true, 24⟩⟩ false none
        (Except.error "boom") = ⟨false, none, some "boom", false⟩ ∧
    BaseScraper.execute ℕ ⟨"x.com", true, ⟨5, 2000⟩, ⟨true, 24⟩⟩ true (some 7)
        (Except.ok 1) = ⟨true, some 7, none, true⟩ :=
  ⟨(claim_c3 ℕ ⟨"x.com", true, ⟨5, 2000⟩, ⟨true, 24⟩⟩ false none
      (Except.error "boom")).2.2.1 "boom" rfl rfl rfl,
   (claim_c3 ℕ ⟨"x.com", true, ⟨5, 2000⟩, ⟨true, 24⟩⟩ true (some 7)
      (Except.ok 1)).2.1 rfl rfl⟩

/-- Claim C5: the cache read fails open to MISS (none): when the metadata is
missing or unreadable, when the payload file is missing, when the recomputed
checksum of the payload differs from the stored checksum (corruption), and
when now is past createdAt + ttl; moreover anything it does return passed the
expiry and checksum guards (totality of the embedding reflects that the
try/catch never lets an exception escape). -/
theorem claim_c5 :
    ∀ (T : Type) (hash : String → String) (parse : String → Option T)
      (metadata : Option BaseScraper.CacheMetadata) (payload : Option String)
      (ttlHours now : ℤ),
      (metadata = none →
        BaseScraper.loadFromCache hash parse metadata payload ttlHours now = none) ∧
      (payload = none →
        BaseScraper.loadFromCache hash parse metadata payload ttlHours now = none) ∧
      (∀ m raw, metadata = some m → payload = some raw → hash raw ≠ m.checksum →
        BaseScraper.loadFromCache hash parse metadata payload ttlHours now = none) ∧
      (∀ m, metadata = some m → m.createdAt + ttlHours * 3600000 < now →
        BaseScraper.loadFromCache hash parse metadata payload ttlHours now = none) ∧
      (∀ t, BaseScraper.loadFromCache hash parse metadata payload ttlHours now = some t →
        ∃ m raw, metadata = some m ∧ payload = some raw ∧
          now ≤ m.createdAt + ttlHours * 3600000 ∧ hash raw = m.checksum ∧
          parse raw = some t) := by
  intro T hash parse metadata payload ttlHours now
  refine ⟨?_, ?_, ?_, ?_, ?_⟩
  · intro h
    subst h
    rfl
  · intro h
    subst h
    cases metadata <;> rfl
  · intro m raw hm hraw hne
    subst hm
    subst hraw
    simp [BaseScraper.loadFromCache, hne]
  · intro m hm hexp
    subst hm
    cases payload with
    | none => rfl
    | some raw =>
      simp only [BaseScraper.loadFromCache]
      rw [if_pos (by omega)]
  · intro t ht
    cases metadata with
    | none => exact absurd ht (by simp [BaseScraper.loadFromCache])
    | some m =>
      cases payload with
      | none => exact absurd ht (by simp [BaseScraper.loadFromCache])
      | some raw =>
        refine ⟨m, raw, rfl, rfl, ?_, ?_, ?_⟩ <;>
          revert ht <;>
          simp only [BaseScraper.loadFromCache] <;>
          split_ifs with hexp hck <;>
          intro ht <;>
          first
            | exact absurd ht (by simp)
            | omega
            | exact not_not.mp hck
            | exact ht

/-- Witness for C5: a concrete corrupted cache state (payload bytes changed
without updating the stored checksum) and a concrete missing-metadata state
both read back as MISS. -/
theorem claim_c5_witness :
    BaseScraper.loadFromCache (fun _ => "md5-of-corrupted") (fun _ => some (0 : ℕ))
      (some ⟨0, 86400000, "shodan", "md5-of-original"⟩) (some "corrupted-bytes") 24 1000 =
        none ∧
    BaseScraper.loadFromCache (fun _ => "md5-of-corrupted") (fun _ => some (0 : ℕ))
      none (some "payload") 24 1000 = none :=
  ⟨(claim_c5 ℕ (fun _ => "md5-of-corrupted") (fun _ => some 0)
      (some ⟨0, 86400000, "shodan", "md5-of-original"⟩) (some "corrupted-bytes") 24
      1000).2.2.1 ⟨0, 86400000, "shodan", "md5-of-original"⟩ "corrupted-bytes" rfl rfl
      (by decide),
   (claim_c5 ℕ (fun _ => "md5-of-corrupted") (fun _ => some 0) none (some "payload") 24
      1000).1 rfl⟩

/-- Claim C6: when the elapsed time since the previous request start is below
60000/requestsPerMinute, the limiter waits minInterval - elapsed + cooldownMs,
so the two start times end up separated by exactly minInterval + cooldownMs;
when the previous request was at least minInterval ago no wait (and no
cooldown) is applied; with requestsPerMinute=5 and cooldownMs=2000 two
back-to-back fetches start at least 60000/5 + 2000 = 14000 ms apart. -/
theorem claim_c6 :
    ∀ (cfg : BaseScraper.RateLimitConfig) (lastRequestTime now : ℚ),
      (now - lastRequestTime < 60000 / cfg.requestsPerMinute →
        (BaseScraper.applyRateLimit cfg lastRequestTime now).2 - lastRequestTime =
          60000 / cfg.requestsPerMinute + cfg.cooldownMs ∧
        (BaseScraper.applyRateLimit cfg lastRequestTime now).1 =
          60000 / cfg.requestsPerMinute - (now - lastRequestTime) + cfg.cooldownMs) ∧
      (60000 / cfg.requestsPerMinute ≤ now - lastRequestTime →
        (BaseScraper.applyRateLimit cfg lastRequestTime now).1 = 0 ∧
        (BaseScraper.applyRateLimit cfg lastRequestTime now).2 = now) ∧
      (cfg.requestsPerMinute = 5 → cfg.cooldownMs = 2000 →
        now - lastRequestTime < 60000 / cfg.requestsPerMinute →
        14000 ≤ (BaseScraper.applyRateLimit cfg lastRequestTime now).2 - lastRequestTime) := by
  intro cfg last now
  refine ⟨?_, ?_, ?_⟩
  · intro h
    simp only [BaseScraper.applyRateLimit, if_pos h]
    constructor <;> ring_nf
  · intro h
    simp [BaseScraper.applyRateLimit, if_neg (not_lt.mpr h)]
  · intro h5 hcd h
    rw [h5, show (60000 : ℚ) / 5 = 12000 from by norm_num] at h
    simp only [BaseScraper.applyRateLimit, h5, hcd,
      show (60000 : ℚ) / 5 = 12000 from by norm_num, if_pos h]
    linarith

/-- Witness for C6: the theorem applied with requestsPerMinute=5,
cooldownMs=2000 and a second call issued immediately (elapsed 0): the second
start time is exactly 14000 ms after the first. -/
theorem claim_c6_witness :
    (BaseScraper.applyRateLimit ⟨5, 2000⟩ 0 0).2 - 0 = 60000 / 5 + 2000 ∧
    14000 ≤ (BaseScraper.applyRateLimit ⟨5, 2000⟩ 0 0).2 - 0 :=
  ⟨((claim_c6 ⟨5, 2000⟩ 0 0).1 (by norm_num)).1,
   (claim_c6 ⟨5, 2000⟩ 0 0).2.2 rfl rfl (by norm_num)⟩

/-- JS String.prototype check: does the first list start the second one. -/
def leadsWith : List Char → List Char → Bool
  | [], _ => true
  | _ :: _, [] => false
  | a :: as, b :: bs => a == b && leadsWith as bs

/-- Occurrence of `needle` anywhere in the list (JS `includes`). -/
def containsSeq (needle : List Char) : List Char → Bool
  | [] => needle.isEmpty
  | c :: rest => leadsWith needle (c :: rest) || containsSeq needle rest

/-- JS `s.includes(sub)`. -/
def jsIncludes (s sub : String) : Bool := containsSeq sub.data s.data

namespace LLMAnalyzer

/-- Source: analyzer (llm), interface NormalizedData. -/
structure NormalizedData where
  threatCount : ℕ
  critical : ℕ
  high : ℕ
  medium : ℕ
  topCategory : String
  topThreats : List (String × String × String)
  iocCounts : List (String × ℕ)
  cves : List String
  sources : List String
deriving DecidableEq

structure Insight where
  id : String
  type : String
  title : String
  content : String
  confidence : ℕ
  relatedThreats : List String
deriving DecidableEq

structure TrendingTopic where
  topic : String
  growth : ℤ
  relevance : ℕ
deriving DecidableEq

structure TokenUsage where
  input : ℕ
  output : ℕ
  total : ℕ
deriving DecidableEq

/-- Source: LLMAnalysisResult from types/index (fields used by the analyzer). -/
structure LLMAnalysisResult where
  insights : List Insight
  executiveSummary : String
  technicalSummary : String
  recommendations : List String
  trendingTopics : List TrendingTopic
  analysisTimestamp : String
  model : String
  tokenUsage : TokenUsage
deriving DecidableEq

/-- Source: analyzer, calculateRisk. -/
def calculateRisk (d : NormalizedData) : String :=
  if d.critical > 0 then "critical"
  else if d.high > 2 then "high"
  else if d.high > 0 || d.medium > 5 then "medium"
  else "low"

/-- Source: analyzer, defaultSummary. -/
def defaultSummary (d : NormalizedData) : String :=
  toString d.threatCount ++ " amenazas detectadas, " ++ toString d.critical ++
    " críticas. Foco: " ++ d.topCategory ++ "."

/-- Source: analyzer, defaultAction. -/
def defaultAction (d : NormalizedData) : String :=
  if d.critical > 0 then "Revisar amenazas críticas inmediatamente"
  else if d.high > 0 then "Priorizar amenazas de severidad alta"
  else "Monitorear indicadores detectados"

set_option linter.unusedVariables false in
/-- Source: analyzer, buildResult.  `ollamaModel` is the OLLAMA_MODEL
environment constant; `nowMs` is the value of `Date.now()` used for the
insight id and `nowIso` the `new Date().toISOString()` timestamp.  Note that
the `risk` argument is accepted and dropped by the original as well. -/
def buildResult (ollamaModel : String) (data : NormalizedData)
    (risk summary action model : String) (nowMs : ℕ) (nowIso : String) :
    LLMAnalysisResult :=
  let insight : Insight :=
    { id := "insight_" ++ toString nowMs, type := "trend",
      title := "Análisis CTI", content := summary,
      confidence := if model = "ollama" then 75 else 70, relatedThreats := [] }
  { insights := [insight],
    executiveSummary := summary,
    technicalSummary := "IOCs: " ++
      String.intercalate ", " (data.iocCounts.map (fun kv => toString kv.2 ++ " " ++ kv.1)) ++
      ". CVEs: " ++ toString data.cves.length ++ ". Fuentes: " ++
      String.intercalate ", " data.sources ++ ".",
    recommendations := [action],
    trendingTopics := [{ topic := data.topCategory, growth := 0, relevance := 100 }],
    analysisTimestamp := nowIso,
    model := ollamaModel ++ "-" ++ model,
    tokenUsage := { input := 0, output := 0, total := 0 } }

/-- Source: analyzer, heuristicAnalysis (the deterministic path taken when the
Ollama call fails). -/
def heuristicAnalysis (ollamaModel : String) (data : NormalizedData)
    (nowMs : ℕ) (nowIso : String) : LLMAnalysisResult :=
  buildResult ollamaModel data (calculateRisk data) (defaultSummary data)
    (defaultAction data) "heuristic" nowMs nowIso

end LLMAnalyzer

namespace CTIAgentSystem

structure CTIAnalysisOut where
  summary : String
  keyFindings : List String
  riskLevel : String
  riskScore : ℕ
  recommendations : List String
  killChainPhase : String
deriving DecidableEq

/-- Source: cti-agent-system, CTIAgentSystem.fallbackAnalysis.  A pure
function of the context string (it reads nothing else). -/
def fallbackAnalysis (context : String) : CTIAnalysisOut :=
  let hasCritical := jsIncludes context "Critical:" && !(jsIncludes context "Critical: 0")
  let hasVulns := jsIncludes context "CVE-"
  { summary := "Automated threat intelligence analysis based on Shodan infrastructure scans and X.com social monitoring.",
    keyFindings := [
      if hasVulns then "Known vulnerabilities detected in exposed infrastructure"
      else "Infrastructure scan completed",
      "Remote access services (SSH/RDP/SMB) exposed to internet",
      "Social media monitoring active for threat indicators"],
    riskLevel := if hasCritical then "high" else "medium",
    riskScore := if hasCritical then 70 else 50,
    recommendations := [
      "Review and restrict exposed remote access services",
      "Patch systems with known vulnerabilities",
      "Implement network segmentation",
      "Enable multi-factor authentication",
      "Monitor for indicators of compromise"],
    killChainPhase := "Reconnaissance" }

end CTIAgentSystem

/-- Claim C7 (corrected): the heuristic output is NOT identical across two
runs on the same input context: the insight id embeds Date.now(), so running
the fallback path at two different instants (here 0 ms and 1 ms) produces
different results even with everything else fixed. -/
theorem claim_c7_counterexample :
    LLMAnalyzer.heuristicAnalysis "qwen2:0.5b"
        ⟨3, 1, 0, 0, "malware", [], [("cve", 2)], ["CVE-2024-0001"], ["shodan"]⟩ 0 "t" ≠
      LLMAnalyzer.heuristicAnalysis "qwen2:0.5b"
        ⟨3, 1, 0, 0, "malware", [], [("cve", 2)], ["CVE-2024-0001"], ["shodan"]⟩ 1 "t" := by
  decide

/-- Claim C7 (amended): with a failing endpoint the fallback result is a pure
function of the input context up to wall-clock provenance fields: two
heuristicAnalysis runs on the same normalized data agree on every field
except analysisTimestamp and the generated insight id (which embed the
clock); and CTIAgentSystem.fallbackAnalysis depends on the context only
through its two content flags, so any two contexts with the same flags give
identical output. -/
theorem claim_c7 :
    ∀ (om : String) (d : LLMAnalyzer.NormalizedData) (n₁ n₂ : ℕ) (iso₁ iso₂ : String),
      (LLMAnalyzer.heuristicAnalysis om d n₁ iso₁).executiveSummary =
        (LLMAnalyzer.heuristicAnalysis om d n₂ iso₂).executiveSummary ∧
      (LLMAnalyzer.heuristicAnalysis om d n₁ iso₁).technicalSummary =
        (LLMAnalyzer.heuristicAnalysis om d n₂ iso₂).technicalSummary ∧
      (LLMAnalyzer.heuristicAnalysis om d n₁ iso₁).recommendations =
        (LLMAnalyzer.heuristicAnalysis om d n₂ iso₂).recommendations ∧
      (LLMAnalyzer.heuristicAnalysis om d n₁ iso₁).trendingTopics =
        (LLMAnalyzer.heuristicAnalysis om d n₂ iso₂).trendingTopics ∧
      (LLMAnalyzer.heuristicAnalysis om d n₁ iso₁).model =
        (LLMAnalyzer.heuristicAnalysis om d n₂ iso₂).model ∧
      (LLMAnalyzer.heuristicAnalysis om d n₁ iso₁).tokenUsage =
        (LLMAnalyzer.heuristicAnalysis om d n₂ iso₂).tokenUsage ∧
      (LLMAnalyzer.heuristicAnalysis om d n₁ iso₁).insights.map
          (fun i => (i.type, i.title, i.content, i.confidence, i.relatedThreats)) =
        (LLMAnalyzer.heuristicAnalysis om d n₂ iso₂).insights.map
          (fun i => (i.type, i.title, i.content, i.confidence, i.relatedThreats)) ∧
      (LLMAnalyzer.heuristicAnalysis om d n₁ iso₁).analysisTimestamp = iso₁ ∧
      (LLMAnalyzer.heuristicAnalysis om d n₁ iso₁).insights.map (·.id) =
        ["insight_" ++ toString n₁] ∧
      (∀ ctx₁ ctx₂ : String,
        jsIncludes ctx₁ "Critical:" = jsIncludes ctx₂ "Critical:" →
        jsIncludes ctx₁ "Critical: 0" = jsIncludes ctx₂ "Critical: 0" →
        jsIncludes ctx₁ "CVE-" = jsIncludes ctx₂ "CVE-" →
        CTIAgentSystem.fallbackAnalysis ctx₁ = CTIAgentSystem.fallbackAnalysis ctx₂) := by
  intro om d n₁ n₂ iso₁ iso₂
  refine ⟨rfl, rfl, rfl, rfl, rfl, rfl, rfl, rfl, rfl, ?_⟩
  intro ctx₁ ctx₂ h1 h2 h3
  unfold CTIAgentSystem.fallbackAnalysis
  rw [h1, h2, h3]

/-- Witness for C7: the amended theorem applied to a concrete normalized data
set at two concrete instants, and to two distinct concrete contexts carrying
the same content flags. -/
theorem claim_c7_witness :
    (LLMAnalyzer.heuristicAnalysis "qwen2:0.5b"
        ⟨2, 0, 1, 0, "phishing", [], [], [], ["x.com"]⟩ 5 "a").executiveSummary =
      (LLMAnalyzer.heuristicAnalysis "qwen2:0.5b"
        ⟨2, 0, 1, 0, "phishing", [], [], [], ["x.com"]⟩ 9 "b").executiveSummary ∧
    CTIAgentSystem.fallbackAnalysis "Critical: 2 CVE-2024-1" =
      CTIAgentSystem.fallbackAnalysis "CVE-2024-9 Critical: 3" :=
  ⟨(claim_c7 "qwen2:0.5b" ⟨2, 0, 1, 0, "phishing", [], [], [], ["x.com"]⟩ 5 9 "a" "b").1,
   (claim_c7 "qwen2:0.5b" ⟨2, 0, 1, 0, "phishing", [], [], [], ["x.com"]⟩ 5 9 "a"
      "b").2.2.2.2.2.2.2.2.2 "Critical: 2 CVE-2024-1" "CVE-2024-9 Critical: 3"
      (by decide) (by decide) (by decide)⟩

/-- Source: DataSource enum from types/index ('shodan', 'x.com', ...). -/
inductive DataSource where
  | shodan
  | xcom
  | misp
  | alienvault
  | virustotal
  | abusech
deriving DecidableEq, Repr

namespace DashboardGenerator

/-- Source: CorrelationSignal.temporalAnalysis from types/index. -/
structure TemporalAnalysis where
  timeDeltaHours : ℚ
  infraPrecedesSocial : Bool
  pattern : String
deriving DecidableEq

/-- Source: one entry of CorrelationSignal.sources from types/index. -/
structure CorrelationSource where
  source : DataSource
  count : ℕ
  sampleData : List String
  lastSeen : String
deriving DecidableEq

/-- Source: CorrelationSignal from types/index (fields the dashboard uses). -/
structure CorrelationSignal where
  id : String
  label : String
  sources : List CorrelationSource
  temporalAnalysis : Option TemporalAnalysis
deriving DecidableEq

/-- Source: ProcessedData.correlation as consumed by buildCorrelationSection
(signals plus dominantPattern; the summary sub-object is not read there). -/
structure CorrelationInput where
  signals : List CorrelationSignal
  dominantPattern : String
deriving DecidableEq

/-- The message template selected by generateInterpretation, together with the
data interpolated into it (label and |timeDeltaHours|); the English sentence
text itself is presentational. -/
inductive Interpretation where
  | simultaneous (label : String)
  | infraScanning (label : String) (absDeltaHours : ℚ)
  | infraFirst (label : String) (absDeltaHours : ℚ)
  | socialFirst (label : String) (absDeltaHours : ℚ)
deriving DecidableEq

/-- Source: generate-dashboard.ts, generateInterpretation.
`const deltaHours = sig.temporalAnalysis?.timeDeltaHours;
 if (!deltaHours || deltaHours === 0) return "... simultaneously ...";
 if (sig.temporalAnalysis?.infraPrecedesSocial) {
   if (pattern === 'scanning') return "... scanning ... before ...";
   return "... before social awareness ...";
 } else { return "Social discussion ... preceded ..."; }`
(`!deltaHours` is true exactly when temporalAnalysis is absent or the delta
is zero, NaN aside). -/
def generateInterpretation (sig : CorrelationSignal) : Interpretation :=
  match sig.temporalAnalysis with
  | none => .simultaneous sig.label
  | some ta =>
    if ta.timeDeltaHours = 0 then .simultaneous sig.label
    else if ta.infraPrecedesSocial then
      if ta.pattern = "scanning" then .infraScanning sig.label |ta.timeDeltaHours|
      else .infraFirst sig.label |ta.timeDeltaHours|
    else .socialFirst sig.label |ta.timeDeltaHours|

/-- `s.sources.some(src => src.source === DataSource.SHODAN && src.count > 0)`. -/
def hasInfra (s : CorrelationSignal) : Bool :=
  s.sources.any fun src => src.source == DataSource.shodan && decide (0 < src.count)

/-- `s.sources.some(src => src.source === DataSource.X_COM && src.count > 0)`. -/
def hasSocial (s : CorrelationSignal) : Bool :=
  s.sources.any fun src => src.source == DataSource.xcom && decide (0 < src.count)

/-- Source: generate-dashboard.ts, generateCorrelationInsight. -/
def generateCorrelationInsight (signals : List CorrelationSignal) (pattern : String) :
    String :=
  let topSignals := String.intercalate ", " ((signals.take 3).map (·.label))
  if pattern = "infra-first" then
    "Infrastructure scanning activity detected across " ++ topSignals ++
      " services before corresponding social discussion. This pattern typically indicates active reconnaissance or early exploitation attempts."
  else if pattern = "social-first" then
    "Security discussions around " ++ topSignals ++
      " appeared in social channels before observable infrastructure activity. This could indicate emerging threats or coordinated awareness campaigns."
  else if pattern = "simultaneous" then
    "Concurrent activity detected across " ++ topSignals ++
      " in both infrastructure and social intelligence. This synchronized pattern may indicate an active campaign."
  else "Cross-source correlation detected for " ++ topSignals ++ "."

/-- One element of the dashboard correlation.signals array (the evidence-link
arrays, whose construction is purely presentational URL building, are not
modelled). -/
structure CorrelationEntry where
  id : String
  label : String
  infraCount : ℕ
  socialCount : ℕ
  timeDeltaHours : Option ℚ
  interpretation : Interpretation
deriving DecidableEq

structure CorrelationSection where
  insight : String
  pattern : String
  signals : List CorrelationEntry
deriving DecidableEq

/-- Source: generate-dashboard.ts, buildCorrelationSection.
`if (!correlation || correlation.signals.length === 0) return undefined;
 const correlatedSignals = correlation.signals.filter(s => hasInfra && hasSocial);
 if (correlatedSignals.length === 0) return undefined;
 const signals = correlatedSignals.slice(0, 5).map(sig => ({ id, label,
   infraCount: find(SHODAN)?.count || 0, socialCount: find(X_COM)?.count || 0,
   timeDeltaHours: sig.temporalAnalysis?.timeDeltaHours ?? null,
   interpretation: generateInterpretation(sig), evidence: ... }));
 return { insight, pattern: correlation.dominantPattern, signals };` -/
def buildCorrelationSection (correlation : Option CorrelationInput) :
    Option CorrelationSection :=
  match correlation with
  | none => none
  | some corr =>
    if corr.signals.length = 0 then none
    else
      let correlatedSignals := corr.signals.filter fun s => hasInfra s && hasSocial s
      if correlatedSignals.length = 0 then none
      else
        let signals := (correlatedSignals.take 5).map fun sig =>
          { id := sig.id, label := sig.label,
            infraCount :=
              ((sig.sources.find? fun s => s.source == DataSource.shodan).map
                (·.count)).getD 0,
            socialCount :=
              ((sig.sources.find? fun s => s.source == DataSource.xcom).map
                (·.count)).getD 0,
            timeDeltaHours := sig.temporalAnalysis.map (·.timeDeltaHours),
            interpretation := generateInterpretation sig : CorrelationEntry }
        some { insight := generateCorrelationInsight correlatedSignals corr.dominantPattern,
               pattern := corr.dominantPattern,
               signals := signals }

end DashboardGenerator

/-- A six-signal correlation input in which every signal is correlated
(count 1 under shodan and count 1 under x.com). -/
def exCorrSignal (L : String) : DashboardGenerator.CorrelationSignal :=
  ⟨L, L, [⟨DataSource.shodan, 1, [], "2024"⟩, ⟨DataSource.xcom, 1, [], "2024"⟩], none⟩

def exCorr : DashboardGenerator.CorrelationInput :=
  ⟨["L0", "L1", "L2", "L3", "L4", "L5"].map exCorrSignal, "infra-first"⟩

/-- Claim C2 (corrected): a label present with count>0 under both sources does
NOT always appear in correlation.signals: the dashboard truncates to the first
five correlated signals, so with six correlated labels the sixth ("L5") is
present under both sources yet absent from the output. -/
theorem claim_c2_counterexample :
    (exCorr.signals.any fun s =>
      s.label == "L5" && DashboardGenerator.hasInfra s &&
        DashboardGenerator.hasSocial s) = true ∧
    ((DashboardGenerator.buildCorrelationSection (some exCorr)).elim false
      fun sec => sec.signals.any fun e => e.label == "L5") = false := by
  decide

/-- Claim C2 (amended): a label appearing in correlation.signals always comes
from an input signal carrying count>0 under both shodan and x.com (so a
one-source label never appears); and a two-source label always appears
provided it is among the first five correlated signals — in particular
whenever at most five signals pass the two-source filter. -/
theorem claim_c2 :
    ∀ (corr : DashboardGenerator.CorrelationInput) (L : String),
      ((∃ sec, DashboardGenerator.buildCorrelationSection (some corr) = some sec ∧
          ∃ e ∈ sec.signals, e.label = L) →
        ∃ s ∈ corr.signals, s.label = L ∧ DashboardGenerator.hasInfra s = true ∧
          DashboardGenerator.hasSocial s = true) ∧
      (∀ s ∈ corr.signals, s.label = L →
        DashboardGenerator.hasInfra s = true → DashboardGenerator.hasSocial s = true →
        (corr.signals.filter fun t =>
            DashboardGenerator.hasInfra t && DashboardGenerator.hasSocial t).length ≤ 5 →
        ∃ sec, DashboardGenerator.buildCorrelationSection (some corr) = some sec ∧
          ∃ e ∈ sec.signals, e.label = L) := by
  intro corr L
  constructor
  · rintro ⟨sec, hsec, e, he, hlabel⟩
    simp only [DashboardGenerator.buildCorrelationSection] at hsec
    by_cases h0 : corr.signals.length = 0
    · rw [if_pos h0] at hsec
      exact absurd hsec (by simp)
    rw [if_neg h0] at hsec
    by_cases h1 : (corr.signals.filter fun s =>
        DashboardGenerator.hasInfra s && DashboardGenerator.hasSocial s).length = 0
    · rw [if_pos h1] at hsec
      exact absurd hsec (by simp)
    rw [if_neg h1, Option.some_inj] at hsec
    subst hsec
    obtain ⟨sig, hsig, rfl⟩ := List.mem_map.mp he
    have hsig' := List.mem_of_mem_take hsig
    obtain ⟨hmem, hprop⟩ := List.mem_filter.mp hsig'
    obtain ⟨hi, hs⟩ := (Bool.and_eq_true _ _).mp hprop
    exact ⟨sig, hmem, hlabel, hi, hs⟩
  · intro s hs hl hinfra hsocial hlen
    have hmem : s ∈ corr.signals.filter fun t =>
        DashboardGenerator.hasInfra t && DashboardGenerator.hasSocial t :=
      List.mem_filter.mpr ⟨hs, by rw [hinfra, hsocial]; rfl⟩
    have h0 : ¬ corr.signals.length = 0 := by
      have := List.ne_nil_of_mem hs
      simpa [List.length_eq_zero] using this
    have h1 : ¬ (corr.signals.filter fun t =>
        DashboardGenerator.hasInfra t && DashboardGenerator.hasSocial t).length = 0 := by
      have := List.ne_nil_of_mem hmem
      simpa [List.length_eq_zero] using this
    simp only [DashboardGenerator.buildCorrelationSection]
    rw [if_neg h0, if_neg h1]
    refine ⟨_, rfl, ?_⟩
    rw [List.take_of_length_le hlen]
    exact ⟨_, List.mem_map_of_mem _ hmem, hl⟩

/-- Witness for C2: the amended theorem applied to a concrete one-signal
input: the single correlated label "A" appears in the built section. -/
theorem claim_c2_witness :
    ∃ sec, DashboardGenerator.buildCorrelationSection
        (some ⟨[exCorrSignal "A"], "infra-first"⟩) = some sec ∧
      ∃ e ∈ sec.signals, e.label = "A" :=
  (claim_c2 ⟨[exCorrSignal "A"], "infra-first"⟩ "A").2 (exCorrSignal "A")
    (by decide) rfl (by decide) (by decide) (by decide)

/-- Claim C4 (corrected): a correlated signal whose timeDeltaHours is 0.5
(so |timeDeltaHours| < 1 but nonzero) with infraPrecedesSocial set is NOT
classified as simultaneous: generateInterpretation selects the infra-first
template for it.  The code treats only a zero or absent delta as
simultaneous. -/
theorem claim_c4_counterexample :
    ((1 : ℚ) / 2 ≠ 0 ∧ |(1 : ℚ) / 2| < 1) ∧
    DashboardGenerator.generateInterpretation
        ⟨"ssh", "ssh", [], some ⟨1 / 2, true, "exposure"⟩⟩ =
      DashboardGenerator.Interpretation.infraFirst "ssh" (1 / 2) ∧
    DashboardGenerator.generateInterpretation
        ⟨"ssh", "ssh", [], some ⟨1 / 2, true, "exposure"⟩⟩ ≠
      DashboardGenerator.Interpretation.simultaneous "ssh" := by
  have habs : |(1 : ℚ) / 2| = 1 / 2 := abs_of_nonneg (by norm_num)
  refine ⟨⟨by norm_num, by rw [habs]; norm_num⟩, ?_, ?_⟩
  · simp only [DashboardGenerator.generateInterpretation]
    rw [if_neg (by norm_num), if_pos trivial, if_neg (by decide), habs]
  · simp only [DashboardGenerator.generateInterpretation]
    rw [if_neg (by norm_num), if_pos trivial, if_neg (by decide)]
    simp

/-- Claim C4 (amended): generateInterpretation reports simultaneous exactly
when temporalAnalysis is absent or timeDeltaHours is 0 (in particular a
correlated signal with delta 0 is reported as simultaneous, not as an
error); for a nonzero delta it reports the infra-first template (scanning
variant when the upstream pattern is 'scanning') when infraPrecedesSocial is
set, and the social-first template otherwise, always showing
|timeDeltaHours|. -/
theorem claim_c4 :
    ∀ sig : DashboardGenerator.CorrelationSignal,
      (DashboardGenerator.generateInterpretation sig =
          DashboardGenerator.Interpretation.simultaneous sig.label ↔
        (sig.temporalAnalysis = none ∨
          ∃ ta, sig.temporalAnalysis = some ta ∧ ta.timeDeltaHours = 0)) ∧
      (∀ ta, sig.temporalAnalysis = some ta → ta.timeDeltaHours ≠ 0 →
        ta.infraPrecedesSocial = true →
        DashboardGenerator.generateInterpretation sig =
          (if ta.pattern = "scanning" then
            DashboardGenerator.Interpretation.infraScanning sig.label |ta.timeDeltaHours|
          else
            DashboardGenerator.Interpretation.infraFirst sig.label |ta.timeDeltaHours|)) ∧
      (∀ ta, sig.temporalAnalysis = some ta → ta.timeDeltaHours ≠ 0 →
        ta.infraPrecedesSocial = false →
        DashboardGenerator.generateInterpretation sig =
          DashboardGenerator.Interpretation.socialFirst sig.label |ta.timeDeltaHours|) := by
  intro sig
  cases hta : sig.temporalAnalysis with
  | none =>
    refine ⟨?_, ?_, ?_⟩
    · simp [DashboardGenerator.generateInterpretation, hta]
    · intro ta h
      exact absurd h (by simp)
    · intro ta h
      exact absurd h (by simp)
  | some ta =>
    by_cases hz : ta.timeDeltaHours = 0
    · refine ⟨?_, ?_, ?_⟩
      · simp [DashboardGenerator.generateInterpretation, hta, hz]
      · intro ta' h hz'
        rw [Option.some_inj] at h
        subst h
        exact absurd hz hz'
      · intro ta' h hz'
        rw [Option.some_inj] at h
        subst h
        exact absurd hz hz'
    · refine ⟨?_, ?_, ?_⟩
      · simp only [DashboardGenerator.generateInterpretation, hta]
        rw [if_neg hz]
        cases hb : ta.infraPrecedesSocial with
        | true =>
          simp only [if_true]
          by_cases hp : ta.pattern = "scanning" <;>
            simp [hp, hta, hz]
        | false =>
          simp [hta, hz]
      · intro ta' h hz' hb
        rw [Option.some_inj] at h
        subst h
        simp only [DashboardGenerator.generateInterpretation, hta]
        rw [if_neg hz, hb]
        simp
      · intro ta' h hz' hb
        rw [Option.some_inj] at h
        subst h
        simp only [DashboardGenerator.generateInterpretation, hta]
        rw [if_neg hz, hb]
        simp

/-- Witness for C4: the amended theorem applied to a correlated signal with
delta exactly 0 (reported simultaneous) and to one with delta 5 hours,
infraPrecedesSocial set and a non-scanning pattern (reported infra-first). -/
theorem claim_c4_witness :
    DashboardGenerator.generateInterpretation
        ⟨"rdp", "rdp", [], some ⟨0, true, "scanning"⟩⟩ =
      DashboardGenerator.Interpretation.simultaneous "rdp" ∧
    DashboardGenerator.generateInterpretation
        ⟨"smb", "smb", [], some ⟨5, true, "exposure"⟩⟩ =
      DashboardGenerator.Interpretation.infraFirst "smb" 5 := by
  constructor
  · exact (claim_c4 ⟨"rdp", "rdp", [], some ⟨0, true, "scanning"⟩⟩).1.mpr
      (Or.inr ⟨⟨0, true, "scanning"⟩, rfl, rfl⟩)
  · have h := (claim_c4 ⟨"smb", "smb", [], some ⟨5, true, "exposure"⟩⟩).2.1
      ⟨5, true, "exposure"⟩ rfl (by norm_num) rfl
    rw [h, if_neg (by decide)]
    norm_num

namespace DashboardGenerator

/-- JS regex word character `\w` = [A-Za-z0-9_]. -/
def isWordChar (c : Char) : Bool := c.isAlpha || c.isDigit || c = '_'

/-- Length of the leading digit run. -/
def digitCount (cs : List Char) : ℕ := (cs.takeWhile Char.isDigit).length

/-- What is left after the leading digit run. -/
def digitRest (cs : List Char) : List Char := cs.dropWhile Char.isDigit

/-- One `\d{1,3}\.` group of the IPv4 regex.  Backtracking inside `\d{1,3}`
cannot help (shorter prefixes of a digit run are still followed by a digit),
so the group matches exactly when the digit run has length 1..3 and is
followed by a literal dot. -/
def matchOctetDot (cs : List Char) : Option (List Char) :=
  if 1 ≤ digitCount cs ∧ digitCount cs ≤ 3 then
    match digitRest cs with
    | c :: rest => if c = '.' then some rest else none
    | [] => none
  else none

/-- The final `\d{1,3}\b` group: digit run of length 1..3 followed by a word
boundary (end of input or a non-word character, which stays unconsumed). -/
def matchLastOctet (cs : List Char) : Option (List Char) :=
  if 1 ≤ digitCount cs ∧ digitCount cs ≤ 3 then
    match digitRest cs with
    | [] => some []
    | c :: rest => if isWordChar c then none else some (c :: rest)
  else none

/-- A match of `\d{1,3}\.\d{1,3}\.\d{1,3}\.\d{1,3}\b` at the head of the
list, returning the unconsumed rest. -/
def matchIPv4 (cs : List Char) : Option (List Char) :=
  (matchOctetDot cs).bind fun r1 =>
    (matchOctetDot r1).bind fun r2 =>
      (matchOctetDot r2).bind fun r3 => matchLastOctet r3

/-- The global replace
`title.replace(/\b\d{1,3}\.\d{1,3}\.\d{1,3}\.\d{1,3}\b/g, '[IP]')` as a
left-to-right scan.  `prevWord` records whether the previous character is a
word character (the leading `\b` holds at a digit exactly when it is not);
after a replacement the scan resumes right after the match, whose last
character is a digit.  The fuel argument only bounds the recursion and is
always at least the list length. -/
def replaceIPv4F : ℕ → Bool → List Char → List Char
  | 0, _, cs => cs
  | _ + 1, _, [] => []
  | fuel + 1, prevWord, c :: rest =>
    if !prevWord && c.isDigit then
      match matchIPv4 (c :: rest) with
      | some r => '[' :: 'I' :: 'P' :: ']' :: replaceIPv4F fuel true r
      | none => c :: replaceIPv4F fuel (isWordChar c) rest
    else c :: replaceIPv4F fuel (isWordChar c) rest

def replaceIPv4 (prevWord : Bool) (cs : List Char) : List Char :=
  replaceIPv4F cs.length prevWord cs

/-- Source: generate-dashboard.ts, sanitizeTitle.
`return title.replace(/\b\d{1,3}\.\d{1,3}\.\d{1,3}\.\d{1,3}\b/g, '[IP]')
   .substring(0, 80);`
(the title is a list of its characters; substring counts UTF-16 units, which
coincides with characters outside the astral planes). -/
def sanitizeTitle (title : List Char) : List Char :=
  (replaceIPv4 false title).take 80

/-- Does the IPv4 regex match anywhere, scanning with the same word-boundary
discipline (`prevWord` is the word-ness of the character before the list). -/
def hasIPv4 : Bool → List Char → Bool
  | _, [] => false
  | prevWord, c :: rest =>
    if !prevWord && c.isDigit then
      match matchIPv4 (c :: rest) with
      | some _ => true
      | none => hasIPv4 (isWordChar c) rest
    else hasIPv4 (isWordChar c) rest

end DashboardGenerator

namespace DashboardGenerator

lemma digit_decomp (cs : List Char) : digitCount cs + (digitRest cs).length = cs.length := by
  have h := congrArg List.length (List.takeWhile_append_dropWhile Char.isDigit cs)
  rw [List.length_append] at h
  exact h

lemma matchOctetDot_sublen {cs r : List Char} (h : matchOctetDot cs = some r) :
    r.length + 2 ≤ cs.length := by
  unfold matchOctetDot at h
  split_ifs at h with hk
  · cases hdr : digitRest cs with
    | nil =>
      simp only [hdr] at h
      exact absurd h (by simp)
    | cons c rest =>
      simp only [hdr] at h
      by_cases hc : c = '.'
      · rw [if_pos hc, Option.some_inj] at h
        subst h
        have hlen := digit_decomp cs
        rw [hdr] at hlen
        simp only [List.length_cons] at hlen
        omega
      · rw [if_neg hc] at h
        exact absurd h (by simp)

lemma matchLastOctet_sublen {cs r : List Char} (h : matchLastOctet cs = some r) :
    r.length + 1 ≤ cs.length := by
  unfold matchLastOctet at h
  split_ifs at h with hk
  · cases hdr : digitRest cs with
    | nil =>
      simp only [hdr, Option.some_inj] at h
      subst h
      have hlen := digit_decomp cs
      rw [hdr] at hlen
      simp only [List.length_nil] at hlen ⊢
      omega
    | cons c rest =>
      simp only [hdr] at h
      by_cases hc : isWordChar c = true
      · rw [if_pos hc] at h
        exact absurd h (by simp)
      · rw [if_neg hc, Option.some_inj] at h
        subst h
        have hlen := digit_decomp cs
        rw [hdr] at hlen
        simp only [List.length_cons] at hlen ⊢
        omega

lemma matchIPv4_sublen {cs r : List Char} (h : matchIPv4 cs = some r) :
    r.length < cs.length := by
  unfold matchIPv4 at h
  cases h1 : matchOctetDot cs with
  | none => rw [h1] at h; exact absurd h (by simp)
  | some r1 =>
    rw [h1, Option.some_bind] at h
    cases h2 : matchOctetDot r1 with
    | none => rw [h2] at h; exact absurd h (by simp)
    | some r2 =>
      rw [h2, Option.some_bind] at h
      cases h3 : matchOctetDot r2 with
      | none => rw [h3] at h; exact absurd h (by simp)
      | some r3 =>
        rw [h3, Option.some_bind] at h
        have l1 := matchOctetDot_sublen h1
        have l2 := matchOctetDot_sublen h2
        have l3 := matchOctetDot_sublen h3
        have l4 := matchLastOctet_sublen h
        omega

lemma replaceIPv4F_fuel : ∀ (f₁ f₂ : ℕ) (p : Bool) (cs : List Char),
    cs.length ≤ f₁ → cs.length ≤ f₂ → replaceIPv4F f₁ p cs = replaceIPv4F f₂ p cs := by
  intro f₁
  induction f₁ with
  | zero =>
    intro f₂ p cs h₁ h₂
    have : cs = [] := by
      cases cs with
      | nil => rfl
      | cons c rest => simp at h₁
    subst this
    cases f₂ <;> rfl
  | succ f ih =>
    intro f₂ p cs h₁ h₂
    cases cs with
    | nil => cases f₂ <;> rfl
    | cons c rest =>
      cases f₂ with
      | zero => simp at h₂
      | succ g =>
        simp only [replaceIPv4F]
        by_cases hcond : (!p && c.isDigit) = true
        · rw [hcond]
          simp only [if_true]
          cases hm : matchIPv4 (c :: rest) with
          | some r =>
            have hr := matchIPv4_sublen hm
            simp only [List.length_cons] at h₁ h₂ hr
            show '[' :: 'I' :: 'P' :: ']' :: replaceIPv4F f true r =
              '[' :: 'I' :: 'P' :: ']' :: replaceIPv4F g true r
            rw [ih g true r (by omega) (by omega)]
          | none =>
            simp only [List.length_cons] at h₁ h₂
            show c :: replaceIPv4F f (isWordChar c) rest =
              c :: replaceIPv4F g (isWordChar c) rest
            rw [ih g (isWordChar c) rest (by omega) (by omega)]
        · rw [Bool.not_eq_true] at hcond
          rw [hcond]
          simp only [Bool.false_eq_true, if_false]
          simp only [List.length_cons] at h₁ h₂
          rw [ih g (isWordChar c) rest (by omega) (by omega)]

lemma replaceIPv4_nil (p : Bool) : replaceIPv4 p [] = [] := rfl

lemma replaceIPv4_match {p : Bool} {c : Char} {cs r : List Char}
    (hp : p = false) (hd : c.isDigit = true) (hm : matchIPv4 (c :: cs) = some r) :
    replaceIPv4 p (c :: cs) = '[' :: 'I' :: 'P' :: ']' :: replaceIPv4 true r := by
  subst hp
  unfold replaceIPv4
  simp only [List.length_cons, replaceIPv4F, hd, Bool.not_false, Bool.true_and, if_true, hm]
  rw [replaceIPv4F_fuel cs.length r.length true r
    (by have := matchIPv4_sublen hm; simp only [List.length_cons] at this; omega) (le_refl _)]

lemma replaceIPv4_nomatch {p : Bool} {c : Char} {cs : List Char}
    (hp : p = false) (hd : c.isDigit = true) (hm : matchIPv4 (c :: cs) = none) :
    replaceIPv4 p (c :: cs) = c :: replaceIPv4 (isWordChar c) cs := by
  subst hp
  unfold replaceIPv4
  simp only [List.length_cons, replaceIPv4F, hd, Bool.not_false, Bool.true_and, if_true, hm]

lemma replaceIPv4_skip {p : Bool} {c : Char} (cs : List Char)
    (h : (!p && c.isDigit) = false) :
    replaceIPv4 p (c :: cs) = c :: replaceIPv4 (isWordChar c) cs := by
  unfold replaceIPv4
  simp only [List.length_cons, replaceIPv4F, h]
  simp

end DashboardGenerator

namespace DashboardGenerator

/-- The last character of the list, if any, is not a word character. -/
def nwLast (s : List Char) : Prop :=
  ∀ x, s.getLast? = some x → isWordChar x = false

lemma nwLast_nil : nwLast [] := fun x hx => by simp at hx

lemma nwLast_suffix {s s' : List Char} (h : s' <:+ s) (hs : nwLast s) : nwLast s' := by
  obtain ⟨t, rfl⟩ := h
  intro x hx
  apply hs
  have hne : s' ≠ [] := by
    intro he
    subst he
    simp at hx
  rw [List.getLast?_append_of_ne_nil t hne]
  exact hx

lemma nwLast_cons {c : Char} {a : List Char} (h1 : a = [] → isWordChar c = false)
    (h2 : nwLast a) : nwLast (c :: a) := by
  intro x hx
  cases a with
  | nil =>
    simp only [List.getLast?_singleton, Option.some_inj] at hx
    subst hx
    exact h1 rfl
  | cons b bs =>
    rw [List.getLast?_cons_cons] at hx
    exact h2 x hx

/-- The head of the list, if any, is not a digit. -/
def headNotDigit (X : List Char) : Prop :=
  ∀ x, X.head? = some x → x.isDigit = false

lemma isDigit_isWordChar {c : Char} (h : c.isDigit = true) : isWordChar c = true := by
  unfold isWordChar
  rw [h]
  simp

lemma not_word_not_digit {c : Char} (h : isWordChar c = false) : c.isDigit = false := by
  rcases Bool.eq_false_or_eq_true c.isDigit with hd | hd
  · rw [isDigit_isWordChar hd] at h
    exact absurd h (by simp)
  · exact hd

lemma not_all_digits {s : List Char} (hne : s ≠ []) (hs : nwLast s) : digitRest s ≠ [] := by
  intro hempty
  have hall := List.dropWhile_eq_nil_iff.mp hempty
  obtain ⟨x, hx⟩ := Option.isSome_iff_exists.mp (List.getLast?_isSome.mpr hne)
  obtain ⟨hne', hxe⟩ := List.mem_getLast?_eq_getLast (show x ∈ s.getLast? from hx)
  have hmem : x ∈ s := by
    rw [hxe]
    exact List.getLast_mem hne'
  have hdig : x.isDigit = true := hall x hmem
  have := hs x hx
  rw [isDigit_isWordChar hdig] at this
  exact absurd this (by simp)

lemma takeWhile_append_left {p : Char → Bool} :
    ∀ (s Y : List Char), s.dropWhile p ≠ [] →
      (s ++ Y).takeWhile p = s.takeWhile p ∧ (s ++ Y).dropWhile p = s.dropWhile p ++ Y := by
  intro s
  induction s with
  | nil =>
    intro Y h
    exact absurd rfl h
  | cons c cs ih =>
    intro Y h
    by_cases hd : p c
    · rw [List.dropWhile_cons_of_pos hd] at h
      obtain ⟨h1, h2⟩ := ih Y h
      constructor
      · rw [List.cons_append, List.takeWhile_cons_of_pos hd, List.takeWhile_cons_of_pos hd, h1]
      · rw [List.cons_append, List.dropWhile_cons_of_pos hd, List.dropWhile_cons_of_pos hd, h2]
    · constructor
      · rw [List.cons_append, List.takeWhile_cons_of_neg hd, List.takeWhile_cons_of_neg hd]
      · rw [List.cons_append, List.dropWhile_cons_of_neg hd, List.dropWhile_cons_of_neg hd,
          List.cons_append]

lemma digitCount_append {s : List Char} (h : digitRest s ≠ []) (Y : List Char) :
    digitCount (s ++ Y) = digitCount s :=
  congrArg List.length (takeWhile_append_left s Y h).1

lemma digitRest_append {s : List Char} (h : digitRest s ≠ []) (Y : List Char) :
    digitRest (s ++ Y) = digitRest s ++ Y :=
  (takeWhile_append_left s Y h).2

lemma digitCount_nil_of_headNotDigit {X : List Char} (hX : headNotDigit X) :
    digitCount X = 0 := by
  cases X with
  | nil => rfl
  | cons x xs =>
    have hx := hX x rfl
    unfold digitCount
    rw [List.takeWhile_cons_of_neg (by rw [hx]; exact Bool.false_ne_true)]
    rfl

lemma digitRest_suffix (s : List Char) : digitRest s <:+ s :=
  ⟨s.takeWhile Char.isDigit, List.takeWhile_append_dropWhile Char.isDigit s⟩

lemma matchOctetDot_corr (s X : List Char) (hs : nwLast s) (hX : headNotDigit X) :
    matchOctetDot (s ++ X) = none ∨
      ∃ s', s' <:+ s ∧ nwLast s' ∧ ∀ Y, matchOctetDot (s ++ Y) = some (s' ++ Y) := by
  rcases eq_or_ne s [] with rfl | hne
  · left
    rw [List.nil_append]
    unfold matchOctetDot
    rw [digitCount_nil_of_headNotDigit hX, if_neg (by omega)]
  · have hdr := not_all_digits hne hs
    by_cases hk : 1 ≤ digitCount s ∧ digitCount s ≤ 3
    · cases hde : digitRest s with
      | nil => exact absurd hde hdr
      | cons e rest' =>
        by_cases he : e = '.'
        · right
          subst he
          have hsuf : rest' <:+ s := by
            refine List.IsSuffix.trans ?_ (digitRest_suffix s)
            rw [hde]
            exact ⟨['.'], rfl⟩
          refine ⟨rest', hsuf, nwLast_suffix hsuf hs, ?_⟩
          intro Y
          unfold matchOctetDot
          rw [digitCount_append hdr Y, if_pos hk]
          have hdY : digitRest (s ++ Y) = '.' :: (rest' ++ Y) := by
            rw [digitRest_append hdr Y, hde, List.cons_append]
          simp [hdY]
        · left
          unfold matchOctetDot
          rw [digitCount_append hdr X, if_pos hk]
          have hdX : digitRest (s ++ X) = e :: (rest' ++ X) := by
            rw [digitRest_append hdr X, hde, List.cons_append]
          simp only [hdX, if_neg he]
    · left
      unfold matchOctetDot
      rw [digitCount_append hdr X, if_neg hk]

lemma matchLastOctet_corr (s X : List Char) (hs : nwLast s) (hX : headNotDigit X) :
    matchLastOctet (s ++ X) = none ∨
      ∃ s', s' <:+ s ∧ nwLast s' ∧ ∀ Y, matchLastOctet (s ++ Y) = some (s' ++ Y) := by
  rcases eq_or_ne s [] with rfl | hne
  · left
    rw [List.nil_append]
    unfold matchLastOctet
    rw [digitCount_nil_of_headNotDigit hX, if_neg (by omega)]
  · have hdr := not_all_digits hne hs
    by_cases hk : 1 ≤ digitCount s ∧ digitCount s ≤ 3
    · cases hde : digitRest s with
      | nil => exact absurd hde hdr
      | cons e rest' =>
        by_cases hw : isWordChar e = true
        · left
          unfold matchLastOctet
          rw [digitCount_append hdr X, if_pos hk]
          have hdX : digitRest (s ++ X) = e :: (rest' ++ X) := by
            rw [digitRest_append hdr X, hde, List.cons_append]
          simp only [hdX, if_pos hw]
        · right
          have hsuf : (e :: rest') <:+ s := by
            rw [← hde]
            exact digitRest_suffix s
          refine ⟨e :: rest', hsuf, nwLast_suffix hsuf hs, ?_⟩
          intro Y
          unfold matchLastOctet
          rw [digitCount_append hdr Y, if_pos hk]
          have hdY : digitRest (s ++ Y) = e :: (rest' ++ Y) := by
            rw [digitRest_append hdr Y, hde, List.cons_append]
          simp only [hdY, if_neg hw, List.cons_append]
    · left
      unfold matchLastOctet
      rw [digitCount_append hdr X, if_neg hk]

lemma matchIPv4_corr (s X : List Char) (hs : nwLast s) (hX : headNotDigit X) :
    matchIPv4 (s ++ X) = none ∨ ∃ s', ∀ Y, matchIPv4 (s ++ Y) = some (s' ++ Y) := by
  rcases matchOctetDot_corr s X hs hX with h1 | ⟨s1, _, hs1, h1⟩
  · left
    unfold matchIPv4
    rw [h1]
    rfl
  · rcases matchOctetDot_corr s1 X hs1 hX with h2 | ⟨s2, _, hs2, h2⟩
    · left
      unfold matchIPv4
      rw [h1 X, Option.some_bind, h2]
      rfl
    · rcases matchOctetDot_corr s2 X hs2 hX with h3 | ⟨s3, _, hs3, h3⟩
      · left
        unfold matchIPv4
        rw [h1 X, Option.some_bind, h2 X, Option.some_bind, h3]
        rfl
      · rcases matchLastOctet_corr s3 X hs3 hX with h4 | ⟨s4, _, _, h4⟩
        · left
          unfold matchIPv4
          rw [h1 X, Option.some_bind, h2 X, Option.some_bind, h3 X, Option.some_bind, h4]
        · right
          refine ⟨s4, fun Y => ?_⟩
          unfold matchIPv4
          rw [h1 Y, Option.some_bind, h2 Y, Option.some_bind, h3 Y, Option.some_bind, h4 Y]

end DashboardGenerator

namespace DashboardGenerator

lemma matchLastOctet_boundary {cs r : List Char} (h : matchLastOctet cs = some r) :
    r = [] ∨ ∃ d rs, r = d :: rs ∧ isWordChar d = false := by
  unfold matchLastOctet at h
  split_ifs at h with hk
  · cases hde : digitRest cs with
    | nil =>
      simp only [hde, Option.some_inj] at h
      left
      exact h.symm
    | cons e rest =>
      simp only [hde] at h
      by_cases hw : isWordChar e = true
      · rw [if_pos hw] at h
        exact absurd h (by simp)
      · rw [if_neg hw, Option.some_inj] at h
        right
        refine ⟨e, rest, h.symm, ?_⟩
        simpa using hw

lemma matchIPv4_boundary {cs r : List Char} (h : matchIPv4 cs = some r) :
    r = [] ∨ ∃ d rs, r = d :: rs ∧ isWordChar d = false := by
  unfold matchIPv4 at h
  cases h1 : matchOctetDot cs with
  | none => rw [h1] at h; exact absurd h (by simp)
  | some r1 =>
    rw [h1, Option.some_bind] at h
    cases h2 : matchOctetDot r1 with
    | none => rw [h2] at h; exact absurd h (by simp)
    | some r2 =>
      rw [h2, Option.some_bind] at h
      cases h3 : matchOctetDot r2 with
      | none => rw [h3] at h; exact absurd h (by simp)
      | some r3 =>
        rw [h3, Option.some_bind] at h
        exact matchLastOctet_boundary h

lemma replaceIPv4_structure : ∀ (cs : List Char) (p : Bool),
    replaceIPv4 p cs = cs ∨
      ∃ a tail r, cs = a ++ tail ∧ matchIPv4 tail = some r ∧
        replaceIPv4 p cs = a ++ '[' :: 'I' :: 'P' :: ']' :: replaceIPv4 true r ∧
        (a = [] → p = false) ∧ nwLast a := by
  intro cs
  induction cs with
  | nil =>
    intro p
    left
    rfl
  | cons c rest ih =>
    intro p
    by_cases hcond : (!p && c.isDigit) = true
    · obtain ⟨hp, hd⟩ := Bool.and_eq_true _ _ |>.mp hcond
      have hp' : p = false := by
        revert hp
        cases p <;> simp
      cases hm : matchIPv4 (c :: rest) with
      | some r =>
        right
        exact ⟨[], c :: rest, r, rfl, hm,
          by rw [List.nil_append, replaceIPv4_match hp' hd hm], fun _ => hp', nwLast_nil⟩
      | none =>
        have heq := replaceIPv4_nomatch hp' hd hm
        have hw : isWordChar c = true := isDigit_isWordChar hd
        rcases ih (isWordChar c) with hid | ⟨a, tail, r, hsplit, hmr, hrec, hpa, hnw⟩
        · left
          rw [heq, hid]
        · right
          have hane : a ≠ [] := by
            intro he
            rw [hpa he] at hw
            exact absurd hw (by simp)
          refine ⟨c :: a, tail, r, by rw [List.cons_append, ← hsplit], hmr, ?_,
            fun h => absurd h (List.cons_ne_nil _ _), nwLast_cons (fun h => absurd h hane) hnw⟩
          rw [heq, hrec, List.cons_append]
    · have hcf : (!p && c.isDigit) = false := by
        revert hcond
        cases (!p && c.isDigit) <;> simp
      have heq := replaceIPv4_skip rest hcf
      rcases ih (isWordChar c) with hid | ⟨a, tail, r, hsplit, hmr, hrec, hpa, hnw⟩
      · left
        rw [heq, hid]
      · right
        refine ⟨c :: a, tail, r, by rw [List.cons_append, ← hsplit], hmr, ?_,
          fun h => absurd h (List.cons_ne_nil _ _), nwLast_cons hpa hnw⟩
        rw [heq, hrec, List.cons_append]

lemma hasIPv4_ipp (b : Bool) (X : List Char) :
    hasIPv4 b ('[' :: 'I' :: 'P' :: ']' :: X) = hasIPv4 false X := by
  simp [hasIPv4, show ('[').isDigit = false from rfl, show ('I').isDigit = false from rfl,
    show ('P').isDigit = false from rfl, show (']').isDigit = false from rfl,
    show isWordChar '[' = false from rfl, show isWordChar 'I' = true from rfl,
    show isWordChar 'P' = true from rfl, show isWordChar ']' = false from rfl]

/-- After the global replace no position of the output matches the IPv4
regex (scanning the output with the same initial boundary state). -/
lemma hasIPv4_replaceIPv4 : ∀ (n : ℕ) (cs : List Char), cs.length ≤ n →
    ∀ p, hasIPv4 p (replaceIPv4 p cs) = false := by
  intro n
  induction n with
  | zero =>
    intro cs hlen p
    have hnil : cs = [] := by
      cases cs with
      | nil => rfl
      | cons c rest => simp at hlen
    subst hnil
    rfl
  | succ n ih =>
    intro cs hlen p
    cases cs with
    | nil => rfl
    | cons c rest =>
      simp only [List.length_cons] at hlen
      by_cases hcond : (!p && c.isDigit) = true
      · obtain ⟨hp, hd⟩ := Bool.and_eq_true _ _ |>.mp hcond
        have hp' : p = false := by
          revert hp
          cases p <;> simp
        cases hm : matchIPv4 (c :: rest) with
        | some r =>
          rw [replaceIPv4_match hp' hd hm, hasIPv4_ipp]
          have hr := matchIPv4_sublen hm
          simp only [List.length_cons] at hr
          rcases matchIPv4_boundary hm with rfl | ⟨d, rs, rfl, hdw⟩
          · rfl
          · have hdd := not_word_not_digit hdw
            rw [replaceIPv4_skip _ (by rw [hdd]; simp)]
            simp only [List.length_cons] at hr
            simp only [hasIPv4, hdd, Bool.and_false, Bool.false_eq_true, if_false]
            rw [hdw]
            exact ih rs (by omega) false
        | none =>
          rw [replaceIPv4_nomatch hp' hd hm]
          have hw : isWordChar c = true := isDigit_isWordChar hd
          rw [hw]
          have hnone : matchIPv4 (c :: replaceIPv4 true rest) = none := by
            rcases replaceIPv4_structure rest true with hid |
              ⟨a, tail, r, hsplit, hmr, hrec, hpa, hnw⟩
            · rw [hid]
              exact hm
            · have hane : a ≠ [] := by
                intro he
                exact absurd (hpa he) (by simp)
              rw [hrec]
              have hX : headNotDigit ('[' :: 'I' :: 'P' :: ']' :: replaceIPv4 true r) := by
                intro x hx
                simp only [List.head?_cons, Option.some_inj] at hx
                subst hx
                rfl
              have hnwca : nwLast (c :: a) := nwLast_cons (fun h => absurd h hane) hnw
              rcases matchIPv4_corr (c :: a) ('[' :: 'I' :: 'P' :: ']' :: replaceIPv4 true r)
                  hnwca hX with hcase | ⟨s', hall⟩
              · rw [show c :: (a ++ ('[' :: 'I' :: 'P' :: ']' :: replaceIPv4 true r)) =
                    (c :: a) ++ ('[' :: 'I' :: 'P' :: ']' :: replaceIPv4 true r) from rfl]
                exact hcase
              · exfalso
                have h2 := hall tail
                rw [show (c :: a) ++ tail = c :: (a ++ tail) from rfl, ← hsplit, hm] at h2
                exact absurd h2 (by simp)
          simp only [hasIPv4, hcond, if_true, hnone]
          rw [hw]
          exact ih rest (by omega) true
      · have hcf : (!p && c.isDigit) = false := by
          revert hcond
          cases (!p && c.isDigit) <;> simp
        rw [replaceIPv4_skip _ hcf]
        simp only [hasIPv4, hcf, Bool.false_eq_true, if_false]
        exact ih rest (by omega) (isWordChar c)

end DashboardGenerator

/-- A title in which the ten characters "1.2.3.4567" start at index 72: the
digit run "4567" is too long for the regex, so nothing is replaced, but the
80-character cut ends the string right after "...1.2.3.45". -/
def badTitle : List Char := List.replicate 71 'a' ++ (' ' :: "1.2.3.4567".data)

/-- Claim C10 (corrected): the displayed title can contain a raw IPv4
dotted-quad.  On badTitle no IPv4 regex match exists (so nothing is replaced),
yet the 80-character truncation cuts the digit run "4567" down to "45",
leaving the displayed title ending in the dotted-quad "1.2.3.45", which the
IPv4 regex matches. -/
theorem claim_c10_counterexample :
    DashboardGenerator.hasIPv4 false badTitle = false ∧
    DashboardGenerator.hasIPv4 false (DashboardGenerator.sanitizeTitle badTitle) = true ∧
    (DashboardGenerator.sanitizeTitle badTitle).drop 72 = "1.2.3.45".data := by
  refine ⟨?_, ?_, ?_⟩ <;> decide

/-- Claim C10 (amended): the displayed timeline title is always at most 80
characters long, and the replaced string before truncation contains no IPv4
regex match (every matched IPv4 has been replaced by the literal '[IP]' and
the replacement introduces no new match); the truncation itself, however, can
expose a dotted-quad by cutting a longer digit run, so the no-IPv4 guarantee
holds for the untruncated replaced title, not for the displayed one. -/
theorem claim_c10 :
    ∀ title : List Char,
      (DashboardGenerator.sanitizeTitle title).length ≤ 80 ∧
      DashboardGenerator.hasIPv4 false (DashboardGenerator.replaceIPv4 false title) =
        false := by
  intro title
  constructor
  · unfold DashboardGenerator.sanitizeTitle
    rw [List.length_take]
    exact min_le_left _ _
  · exact DashboardGenerator.hasIPv4_replaceIPv4 title.length title le_rfl false
